import Mathlib

/-! # caffe/syncedmem.hpp: host allocation helpers and the synchronized buffer

A shallow embedding of `include/caffe/syncedmem.hpp`.

* `CaffeMallocHost` and `CaffeFreeHost` are defined inline in the header and are
  embedded line by line.  The two preprocessor switches (`CPU_ONLY`, `USE_MKL`)
  become the fields of `Build`; the global `Caffe::mode()` and the results of the
  external allocators become explicit arguments; every external call that is made
  is recorded, in order, in the `calls` of the result.
* The member functions of `SyncedMemory` are only declared in the header.  Their
  bodies are modelled from the prose description of the buffer, and every such
  definition says so in its doc comment.

Addresses are natural numbers and `NULL` is `0`.  Sizes (`size_t`) are natural
numbers; the code performs no arithmetic on them apart from `size ? size : 1`.
-/

set_option linter.unusedVariables false

namespace caffe

/-! ## Addresses, status codes, build switches -/

/-- An address (`void*`). -/
abbrev Ptr := Nat

/-- The null address. -/
def NULL : Ptr := 0

/-- A CUDA status code (`cudaError_t`). -/
abbrev cudaError_t := Nat

/-- The status code of a successful CUDA call. -/
def cudaSuccess : cudaError_t := 0

/-- Modelled from the spec: the execution mode returned by `Caffe::mode()`; the
enumeration is declared in `caffe/common.hpp`, which is not part of the sources.
`GPU` is the mode in which an accelerator context is active. -/
inductive Brew where
  | CPU
  | GPU
  deriving DecidableEq, Repr

/-- The preprocessor switches the header is compiled under. -/
structure Build where
  /-- Set when `CPU_ONLY` is defined: no accelerator support is compiled in. -/
  CPU_ONLY : Bool
  /-- Set when `USE_MKL` is defined: the vector-math-library allocator is available. -/
  USE_MKL : Bool
  deriving DecidableEq, Repr

/-- A call to an external allocation, release or transfer routine. The first six
are the routines named in the header; the remaining ones are the operations of
the device allocator and the host fill used by the buffer. -/
inductive Call where
  | cudaMallocHost (size : Nat)
  | mkl_malloc (size : Nat) (alignment : Nat)
  | malloc (size : Nat)
  | cudaFreeHost (ptr : Ptr)
  | mkl_free (ptr : Ptr)
  | free (ptr : Ptr)
  | device_allocate (size : Nat)
  | device_free (ptr : Ptr)
  | device_zero (ptr : Ptr) (size : Nat)
  | host_zero (ptr : Ptr) (size : Nat)
  | copy_host_to_device (dst : Ptr) (src : Ptr) (size : Nat)
  | copy_device_to_host (dst : Ptr) (src : Ptr) (size : Nat)
  | copy_async_host_to_device (dst : Ptr) (src : Ptr) (size : Nat) (stream : Nat)
  deriving DecidableEq, Repr

/-- The reason a run of the program stopped the process. -/
inductive Fatal where
  /-- The macro `CUDA_CHECK(call)` saw a status other than `cudaSuccess`. The
  macro is applied to the value of the call, so the status is all it is given. -/
  | CUDA_CHECK (error : cudaError_t)
  /-- The macro `CHECK(cond) << message` saw a false condition; `message` is the
  text streamed into it. -/
  | CHECK (message : String)
  /-- The device allocator reported a failed allocation, copy, fill or release. -/
  | device_runtime (error : cudaError_t)
  /-- The device allocator returned the null address: resource exhaustion. -/
  | device_null
  /-- The current device differs from the one recorded for the buffer. -/
  | device_mismatch
  /-- An operation was called in a synchronization state it is not valid in. -/
  | invalid_head
  deriving DecidableEq, Repr

/-- What a routine did: the external calls it made, in order, and either the
values it handed back or the reason the process stopped. -/
structure Run (α : Type) where
  calls : List Call
  result : Except Fatal α

deriving instance DecidableEq for Except

/-- The results of the external host allocators, for one call of
`CaffeMallocHost`: `cudaMallocHost(ptr, size)` yields a status and the address
it stored, `mkl_malloc(size, alignment)` and `malloc(size)` yield an address. -/
structure HostAllocators where
  cudaMallocHost : Nat → cudaError_t × Ptr
  mkl_malloc : Nat → Nat → Ptr
  malloc : Nat → Ptr

/-! ## The host allocator (syncedmem.hpp, lines 19-48) -/

/-- The text streamed into the `CHECK` of `CaffeMallocHost`. -/
def hostAllocationFailed (size : Nat) : String :=
  "host allocation of size " ++ toString size ++ " failed"

/-- The function `CaffeMallocHost(void** ptr, size_t size, bool* use_cuda)`. The arguments
`ptr` and `use_cuda` are the values stored in the two output locations before
the call; the result holds the values stored in them at return. -/
def CaffeMallocHost (cfg : Build) (mode : Brew) (ext : HostAllocators)
    (ptr : Ptr) (size : Nat) (use_cuda : Bool) : Run (Ptr × Bool) :=
  if cfg.CPU_ONLY = false ∧ mode = Brew.GPU then
    -- CUDA_CHECK(cudaMallocHost(ptr, size)); *use_cuda = true; return;
    if (ext.cudaMallocHost size).1 = cudaSuccess then
      ⟨[Call.cudaMallocHost size], .ok ((ext.cudaMallocHost size).2, true)⟩
    else
      ⟨[Call.cudaMallocHost size], .error (Fatal.CUDA_CHECK (ext.cudaMallocHost size).1)⟩
  else if cfg.USE_MKL = true then
    -- *ptr = mkl_malloc(size ? size:1, 64);
    let request := if size ≠ 0 then size else 1
    let p := ext.mkl_malloc request 64
    -- *use_cuda = false; CHECK(*ptr) << ...
    if p ≠ NULL then ⟨[Call.mkl_malloc request 64], .ok (p, false)⟩
    else ⟨[Call.mkl_malloc request 64], .error (Fatal.CHECK (hostAllocationFailed size))⟩
  else
    -- *ptr = malloc(size);
    let p := ext.malloc size
    if p ≠ NULL then ⟨[Call.malloc size], .ok (p, false)⟩
    else ⟨[Call.malloc size], .error (Fatal.CHECK (hostAllocationFailed size))⟩

/-- The function `CaffeFreeHost(void* ptr, bool use_cuda)`; `cudaFreeHost` is the status the
external `cudaFreeHost(ptr)` yields. -/
def CaffeFreeHost (cfg : Build) (cudaFreeHost : Ptr → cudaError_t)
    (ptr : Ptr) (use_cuda : Bool) : Run Unit :=
  if cfg.CPU_ONLY = false ∧ use_cuda = true then
    -- CUDA_CHECK(cudaFreeHost(ptr)); return;
    if cudaFreeHost ptr = cudaSuccess then ⟨[Call.cudaFreeHost ptr], .ok ()⟩
    else ⟨[Call.cudaFreeHost ptr], .error (Fatal.CUDA_CHECK (cudaFreeHost ptr))⟩
  else if cfg.USE_MKL = true then
    ⟨[Call.mkl_free ptr], .ok ()⟩
  else
    ⟨[Call.free ptr], .ok ()⟩

/-- The pairing of deallocators with allocators, as the specification words it:
`cudaFreeHost` for `cudaMallocHost`, `mkl_free` for `mkl_malloc`, `free` for
`malloc`. `matching_free a ptr` is the release call that matches the allocation
call `a` for the address `ptr` it produced. -/
def matching_free : Call → Ptr → Option Call
  | Call.cudaMallocHost _, ptr => some (Call.cudaFreeHost ptr)
  | Call.mkl_malloc _ _, ptr => some (Call.mkl_free ptr)
  | Call.malloc _, ptr => some (Call.free ptr)
  | _, _ => none

/-- The text of a diagnostic. `cuda_check_text` is the text `CUDA_CHECK` prints
for a failing status; the macro is defined in `caffe/common.hpp`, which is not
part of the sources, so it is a parameter. -/
def Fatal.text (cuda_check_text : cudaError_t → String) : Fatal → String
  | Fatal.CUDA_CHECK error => cuda_check_text error
  | Fatal.CHECK message => message
  | Fatal.device_runtime error => cuda_check_text error
  | Fatal.device_null => "device allocation returned null"
  | Fatal.device_mismatch => "device mismatch"
  | Fatal.invalid_head => "invalid head"

/-- Modelled from the spec: the diagnostic of the macro `CUDA_CHECK`, which is
defined in `caffe/common.hpp`, not among the sources. It is a fatal check that
the status of the call equals `cudaSuccess`; it reports the two values and the
description the CUDA runtime gives of the status (`cudaGetErrorString`). The
macro is applied to the value of the call and is given nothing else. -/
def CUDA_CHECK_text (cudaGetErrorString : cudaError_t → String) (error : cudaError_t) :
    String :=
  "Check failed: error == cudaSuccess (" ++ toString error ++ " vs. " ++
    toString cudaSuccess ++ ")  " ++ cudaGetErrorString error

/-- The largest value of `size_t` on a 64-bit target. -/
def SIZE_MAX : Nat := 2 ^ 64 - 1

/-- The text contains the decimal rendering of `size`. -/
def contains_size (text : String) (size : Nat) : Prop :=
  (toString size).data <:+: text.data

/-- The text names the failed operation, the host allocation. -/
def names_host_allocation (text : String) : Prop :=
  "host allocation".data <:+: text.data

/-- Host allocators that fail on every path: `cudaMallocHost` reports status 2
(out of memory), `mkl_malloc` and `malloc` return null. -/
def exhausted : HostAllocators :=
  { cudaMallocHost := fun _ => (2, NULL), mkl_malloc := fun _ _ => NULL,
    malloc := fun _ => NULL }

/-- Host allocators for which `cudaMallocHost` reports success and stores a null
address, as for a request of zero bytes; `mkl_malloc` and `malloc` return the
address 4096. -/
def pinned_null : HostAllocators :=
  { cudaMallocHost := fun _ => (cudaSuccess, NULL), mkl_malloc := fun _ _ => 4096,
    malloc := fun _ => 4096 }

/-- Host allocators that succeed on every path with the address 4096. -/
def plentiful : HostAllocators :=
  { cudaMallocHost := fun _ => (cudaSuccess, 4096), mkl_malloc := fun _ _ => 4096,
    malloc := fun _ => 4096 }

/-! ## The synchronized buffer (syncedmem.hpp, lines 58-92) -/

/-- The enumeration `SyncedMemory::SyncedHead`. -/
inductive SyncedHead where
  | UNINITIALIZED
  | HEAD_AT_CPU
  | HEAD_AT_GPU
  | SYNCED
  deriving DecidableEq, Repr

/-- The data members of `class SyncedMemory`. -/
structure SyncedMemory where
  cpu_ptr_ : Ptr
  gpu_ptr_ : Ptr
  size_ : Nat
  head_ : SyncedHead
  own_cpu_data_ : Bool
  cpu_malloc_use_cuda_ : Bool
  own_gpu_data_ : Bool
  device_ : Int
  deriving DecidableEq, Repr

/-- The accessor `SyncedHead head() const`, which returns `head_`. -/
def SyncedMemory.head (self : SyncedMemory) : SyncedHead := self.head_

/-- The accessor `size_t size() const`, which returns `size_`. -/
def SyncedMemory.size (self : SyncedMemory) : Nat := self.size_

/-- Modelled from the spec: the value of `device_` while no device has been
recorded for the buffer (the header declares `int device_`; device identifiers
are not negative). -/
def NO_DEVICE : Int := -1

/-- Modelled from the spec: the constructor `SyncedMemory(size_t size)`, whose
body is not in the header. A buffer is created with a fixed size, in state
`UNINITIALIZED`, with both addresses unset, owning nothing and with no device
recorded. -/
def SyncedMemory.create (size : Nat) : SyncedMemory :=
  { cpu_ptr_ := NULL, gpu_ptr_ := NULL, size_ := size,
    head_ := SyncedHead.UNINITIALIZED, own_cpu_data_ := false,
    cpu_malloc_use_cuda_ := false, own_gpu_data_ := false, device_ := NO_DEVICE }

/-- A buffer together with the two address spaces it lives in: the bytes of host
memory and of device memory by address, and the external calls made so far. -/
structure Machine where
  mem : SyncedMemory
  host : Nat → Nat
  device : Nat → Nat
  calls : List Call

/-- Modelled from the spec: what the surroundings answer during one operation of
the buffer. The execution mode and the host allocators are the ones the header
uses; the device allocator, whose wrapper is not in the header, is the opaque
allocate/copy/free service of the specification: each of its operations reports
a status, an allocation also an address, and one device is current. -/
structure Runtime where
  mode : Brew
  host : HostAllocators
  cudaFreeHost : Ptr → cudaError_t
  device_allocate : Nat → cudaError_t × Ptr
  device_free : Ptr → cudaError_t
  device_zero : cudaError_t
  device_copy : cudaError_t
  device_copy_async : cudaError_t
  current_device : Int

/-- Memory after `n` bytes starting at `p` have been set to zero. -/
def zeroed (m : Nat → Nat) (p n : Nat) : Nat → Nat :=
  fun a => if p ≤ a ∧ a < p + n then 0 else m a

/-- Memory `dst` after the `n` bytes starting at `s` in `src` have been copied
to the `n` bytes starting at `d`. -/
def copied (dst : Nat → Nat) (d : Nat) (src : Nat → Nat) (s n : Nat) : Nat → Nat :=
  fun a => if d ≤ a ∧ a < d + n then src (s + (a - d)) else dst a

/-- Modelled from the spec: `SyncedMemory::check_device()`, declared in the
header and defined elsewhere. Once a device has been recorded, the current
device is compared to it and a mismatch is fatal. -/
def check_device (rt : Runtime) (m : Machine) : Except Fatal Unit :=
  if m.mem.device_ = NO_DEVICE ∨ m.mem.device_ = rt.current_device then .ok ()
  else .error Fatal.device_mismatch

/-- Modelled from the spec: internal allocation of the host block through
`CaffeMallocHost(&cpu_ptr_, size_, &cpu_malloc_use_cuda_)`, marking it owned
(the caller of the host allocator is in the missing `syncedmem.cpp`). -/
def allocate_host (cfg : Build) (rt : Runtime) (m : Machine) : Except Fatal Machine :=
  let r := CaffeMallocHost cfg rt.mode rt.host m.mem.cpu_ptr_ m.mem.size_
    m.mem.cpu_malloc_use_cuda_
  match r.result with
  | .error e => .error e
  | .ok (p, u) =>
    .ok { m with
      mem := { m.mem with cpu_ptr_ := p, cpu_malloc_use_cuda_ := u, own_cpu_data_ := true }
      calls := m.calls ++ r.calls }

/-- Modelled from the spec: internal allocation of the device block through the
device allocator, marking it owned and recording the current device (the caller
is in the missing `syncedmem.cpp`). A failure reported by the device runtime is
fatal, and so is an allocation that returns the null address. -/
def allocate_device (rt : Runtime) (m : Machine) : Except Fatal Machine :=
  let r := rt.device_allocate m.mem.size_
  if r.1 ≠ cudaSuccess then .error (Fatal.device_runtime r.1)
  else if r.2 = NULL then .error Fatal.device_null
  else
    .ok { m with
      mem := { m.mem with gpu_ptr_ := r.2, own_gpu_data_ := true,
                          device_ := rt.current_device }
      calls := m.calls ++ [Call.device_allocate m.mem.size_] }

/-- Modelled from the spec: `SyncedMemory::to_cpu()` (the spec's `ensure_host`),
declared in the header and defined elsewhere.
`UNINITIALIZED`: allocate host memory, zero-fill, head becomes `HEAD_AT_CPU`, owned.
`HEAD_AT_GPU`: allocate host memory if not yet present, copy device to host
synchronously, head becomes `SYNCED`. `HEAD_AT_CPU`, `SYNCED`: nothing. -/
def to_cpu (cfg : Build) (rt : Runtime) (m : Machine) : Except Fatal Machine :=
  match m.mem.head_ with
  | SyncedHead.UNINITIALIZED =>
    match allocate_host cfg rt m with
    | .error e => .error e
    | .ok m1 =>
      .ok { m1 with
        mem := { m1.mem with head_ := SyncedHead.HEAD_AT_CPU }
        host := zeroed m1.host m1.mem.cpu_ptr_ m1.mem.size_
        calls := m1.calls ++ [Call.host_zero m1.mem.cpu_ptr_ m1.mem.size_] }
  | SyncedHead.HEAD_AT_GPU =>
    match (if m.mem.cpu_ptr_ = NULL then allocate_host cfg rt m else .ok m) with
    | .error e => .error e
    | .ok m1 =>
      if rt.device_copy = cudaSuccess then
        .ok { m1 with
          mem := { m1.mem with head_ := SyncedHead.SYNCED }
          host := copied m1.host m1.mem.cpu_ptr_ m1.device m1.mem.gpu_ptr_ m1.mem.size_
          calls := m1.calls ++
            [Call.copy_device_to_host m1.mem.cpu_ptr_ m1.mem.gpu_ptr_ m1.mem.size_] }
      else .error (Fatal.device_runtime rt.device_copy)
  | SyncedHead.HEAD_AT_CPU => .ok m
  | SyncedHead.SYNCED => .ok m

/-- Modelled from the spec: `SyncedMemory::to_gpu()` (the spec's `ensure_device`),
declared in the header and defined elsewhere. Symmetric to `to_cpu`, and it
performs `check_device` and zero-fills on first allocation. -/
def to_gpu (rt : Runtime) (m : Machine) : Except Fatal Machine :=
  match check_device rt m with
  | .error e => .error e
  | .ok () =>
    match m.mem.head_ with
    | SyncedHead.UNINITIALIZED =>
      match allocate_device rt m with
      | .error e => .error e
      | .ok m1 =>
        if rt.device_zero = cudaSuccess then
          .ok { m1 with
            mem := { m1.mem with head_ := SyncedHead.HEAD_AT_GPU }
            device := zeroed m1.device m1.mem.gpu_ptr_ m1.mem.size_
            calls := m1.calls ++ [Call.device_zero m1.mem.gpu_ptr_ m1.mem.size_] }
        else .error (Fatal.device_runtime rt.device_zero)
    | SyncedHead.HEAD_AT_CPU =>
      match (if m.mem.gpu_ptr_ = NULL then allocate_device rt m else .ok m) with
      | .error e => .error e
      | .ok m1 =>
        if rt.device_copy = cudaSuccess then
          .ok { m1 with
            mem := { m1.mem with head_ := SyncedHead.SYNCED }
            device := copied m1.device m1.mem.gpu_ptr_ m1.host m1.mem.cpu_ptr_ m1.mem.size_
            calls := m1.calls ++
              [Call.copy_host_to_device m1.mem.gpu_ptr_ m1.mem.cpu_ptr_ m1.mem.size_] }
        else .error (Fatal.device_runtime rt.device_copy)
    | SyncedHead.HEAD_AT_GPU => .ok m
    | SyncedHead.SYNCED => .ok m

/-- Modelled from the spec: `SyncedMemory::cpu_data()` (the spec's `host_view`):
ensures the host copy is current and returns the host address. -/
def cpu_data (cfg : Build) (rt : Runtime) (m : Machine) : Except Fatal (Ptr × Machine) :=
  match to_cpu cfg rt m with
  | .error e => .error e
  | .ok m1 => .ok (m1.mem.cpu_ptr_, m1)

/-- Modelled from the spec: `SyncedMemory::mutable_cpu_data()` (the spec's
`mutable_host_view`): `to_cpu`, then head is set to `HEAD_AT_CPU`. -/
def mutable_cpu_data (cfg : Build) (rt : Runtime) (m : Machine) :
    Except Fatal (Ptr × Machine) :=
  match to_cpu cfg rt m with
  | .error e => .error e
  | .ok m1 =>
    .ok (m1.mem.cpu_ptr_, { m1 with mem := { m1.mem with head_ := SyncedHead.HEAD_AT_CPU } })

/-- Modelled from the spec: `SyncedMemory::gpu_data()` (the spec's `device_view`):
the device-context check, `to_gpu`, and the device address is returned. -/
def gpu_data (rt : Runtime) (m : Machine) : Except Fatal (Ptr × Machine) :=
  match check_device rt m with
  | .error e => .error e
  | .ok () =>
    match to_gpu rt m with
    | .error e => .error e
    | .ok m1 => .ok (m1.mem.gpu_ptr_, m1)

/-- Modelled from the spec: `SyncedMemory::mutable_gpu_data()` (the spec's
`mutable_device_view`): the device-context check, `to_gpu`, then head is set to
`HEAD_AT_GPU`. -/
def mutable_gpu_data (rt : Runtime) (m : Machine) : Except Fatal (Ptr × Machine) :=
  match check_device rt m with
  | .error e => .error e
  | .ok () =>
    match to_gpu rt m with
    | .error e => .error e
    | .ok m1 =>
      .ok (m1.mem.gpu_ptr_,
        { m1 with mem := { m1.mem with head_ := SyncedHead.HEAD_AT_GPU } })

/-- Modelled from the spec: `SyncedMemory::set_cpu_data(void* data)` (the spec's
`attach_host`): releases any owned host pointer through `CaffeFreeHost`, installs
the given pointer as borrowed, head becomes `HEAD_AT_CPU`. -/
def set_cpu_data (cfg : Build) (rt : Runtime) (data : Ptr) (m : Machine) :
    Except Fatal Machine :=
  let r : Run Unit :=
    if m.mem.own_cpu_data_ = true then
      CaffeFreeHost cfg rt.cudaFreeHost m.mem.cpu_ptr_ m.mem.cpu_malloc_use_cuda_
    else ⟨[], .ok ()⟩
  match r.result with
  | .error e => .error e
  | .ok () =>
    .ok { m with
      mem := { m.mem with cpu_ptr_ := data, head_ := SyncedHead.HEAD_AT_CPU,
                          own_cpu_data_ := false }
      calls := m.calls ++ r.calls }

/-- Modelled from the spec: `SyncedMemory::set_gpu_data(void* data)` (the spec's
`attach_device`), symmetric to `set_cpu_data`: releases any owned device pointer
through the device allocator, installs the given pointer as borrowed, head
becomes `HEAD_AT_GPU`. -/
def set_gpu_data (rt : Runtime) (data : Ptr) (m : Machine) : Except Fatal Machine :=
  match check_device rt m with
  | .error e => .error e
  | .ok () =>
    if m.mem.own_gpu_data_ = true ∧ rt.device_free m.mem.gpu_ptr_ ≠ cudaSuccess then
      .error (Fatal.device_runtime (rt.device_free m.mem.gpu_ptr_))
    else
      .ok { m with
        mem := { m.mem with gpu_ptr_ := data, head_ := SyncedHead.HEAD_AT_GPU,
                            own_gpu_data_ := false }
        calls := m.calls ++
          (if m.mem.own_gpu_data_ = true then [Call.device_free m.mem.gpu_ptr_] else []) }

/-- Modelled from the spec: `SyncedMemory::async_gpu_push(const cudaStream_t&)`
(the spec's `async_push`), declared in the header when `CPU_ONLY` is not defined
and defined elsewhere.
Valid only when head is `HEAD_AT_CPU`; ensures device memory is allocated without
changing head, then issues an asynchronous host-to-device copy on the stream and
returns; head is not advanced. The copy is recorded as issued: when its bytes
arrive belongs to the device runtime and the stream, not to this call. -/
def async_gpu_push (rt : Runtime) (stream : Nat) (m : Machine) : Except Fatal Machine :=
  if m.mem.head_ ≠ SyncedHead.HEAD_AT_CPU then .error Fatal.invalid_head
  else
    match check_device rt m with
    | .error e => .error e
    | .ok () =>
      match (if m.mem.gpu_ptr_ = NULL then allocate_device rt m else .ok m) with
      | .error e => .error e
      | .ok m1 =>
        if rt.device_copy_async = cudaSuccess then
          .ok { m1 with
            calls := m1.calls ++
              [Call.copy_async_host_to_device m1.mem.gpu_ptr_ m1.mem.cpu_ptr_
                m1.mem.size_ stream] }
        else .error (Fatal.device_runtime rt.device_copy_async)

/-- One call on the public interface of a buffer. -/
inductive Action where
  | cpu_data
  | gpu_data
  | mutable_cpu_data
  | mutable_gpu_data
  | set_cpu_data (data : Ptr)
  | set_gpu_data (data : Ptr)
  | async_gpu_push (stream : Nat)
  deriving DecidableEq, Repr

/-- The effect of one call, made while the surroundings answer as `rt`. -/
def step (cfg : Build) (m : Machine) (a : Action × Runtime) : Except Fatal Machine :=
  match a.1 with
  | Action.cpu_data => (cpu_data cfg a.2 m).map Prod.snd
  | Action.gpu_data => (gpu_data a.2 m).map Prod.snd
  | Action.mutable_cpu_data => (mutable_cpu_data cfg a.2 m).map Prod.snd
  | Action.mutable_gpu_data => (mutable_gpu_data a.2 m).map Prod.snd
  | Action.set_cpu_data data => set_cpu_data cfg a.2 data m
  | Action.set_gpu_data data => set_gpu_data a.2 data m
  | Action.async_gpu_push stream => async_gpu_push a.2 stream m

/-- The effect of a sequence of calls; the process stops at the first fatal one. -/
def run (cfg : Build) (m : Machine) : List (Action × Runtime) → Except Fatal Machine
  | [] => .ok m
  | a :: rest =>
    match step cfg m a with
    | .error e => .error e
    | .ok m1 => run cfg m1 rest

/-- A freshly constructed buffer of the given size, in surroundings with the
given memory contents and no call made yet. -/
def fresh (size : Nat) (host device : Nat → Nat) : Machine :=
  { mem := SyncedMemory.create size, host := host, device := device, calls := [] }

/-- The first `size_` bytes at the host address and at the device address are
the same. -/
def Machine.identical (m : Machine) : Prop :=
  ∀ i, i < m.mem.size_ → m.host (m.mem.cpu_ptr_ + i) = m.device (m.mem.gpu_ptr_ + i)

instance (m : Machine) : Decidable m.identical := by
  unfold Machine.identical
  infer_instance

instance (text : String) (size : Nat) : Decidable (contains_size text size) := by
  unfold contains_size
  infer_instance

/-- The number of synchronous device-to-host copies among the calls. -/
def deviceToHostCopies : List Call → Nat
  | [] => 0
  | Call.copy_device_to_host _ _ _ :: rest => deviceToHostCopies rest + 1
  | _ :: rest => deviceToHostCopies rest

/-- The facts that hold of a buffer in every state it can reach. `H` stands for
"no null pointer has been attached by `set_cpu_data`" and `D` for "no null
pointer has been attached by `set_gpu_data`". -/
structure Consistent (H D : Prop) (m : Machine) : Prop where
  uninitialized : m.mem.head_ = SyncedHead.UNINITIALIZED →
    m.mem.cpu_ptr_ = NULL ∧ m.mem.gpu_ptr_ = NULL
  host_null : H → m.mem.cpu_ptr_ = NULL →
    m.mem.head_ = SyncedHead.UNINITIALIZED ∨ m.mem.head_ = SyncedHead.HEAD_AT_GPU ∨
      (m.mem.own_cpu_data_ = true ∧ m.mem.cpu_malloc_use_cuda_ = true)
  device_null : D → m.mem.gpu_ptr_ = NULL →
    m.mem.head_ = SyncedHead.UNINITIALIZED ∨ m.mem.head_ = SyncedHead.HEAD_AT_CPU
  owned_host : m.mem.own_cpu_data_ = true → m.mem.cpu_ptr_ = NULL →
    m.mem.cpu_malloc_use_cuda_ = true
  owned_device : m.mem.own_gpu_data_ = true → m.mem.gpu_ptr_ ≠ NULL
  synced : m.mem.head_ = SyncedHead.SYNCED → m.identical

/-- The call does not attach a null host pointer if `H`, nor a null device
pointer if `D`. -/
def Action.attaches_set (H D : Prop) (a : Action) : Prop :=
  (H → a ≠ Action.set_cpu_data NULL) ∧ (D → a ≠ Action.set_gpu_data NULL)

/-- Surroundings in which nothing fails: the host allocators hand out the
address 4096, the device allocator hands out the address 8192, every status is
`cudaSuccess` and the current device is device 0. -/
def healthy (mode : Brew) : Runtime :=
  { mode := mode, host := plentiful, cudaFreeHost := fun _ => cudaSuccess,
    device_allocate := fun _ => (cudaSuccess, 8192), device_free := fun _ => cudaSuccess,
    device_zero := cudaSuccess, device_copy := cudaSuccess,
    device_copy_async := cudaSuccess, current_device := 0 }

/-- The state a sequence of calls ends in, or the starting state if the process
stopped. -/
def run_or (cfg : Build) (m : Machine) (acts : List (Action × Runtime)) : Machine :=
  match run cfg m acts with
  | .ok m1 => m1
  | .error _ => m

/-- A sequence of calls that uses every kind of operation: a mutable device
access, a host read, an attach of the host address 12288, an asynchronous push
on stream 1, a mutable host access, a device read and an attach of the device
address 16384. -/
def busy : List (Action × Runtime) :=
  [(Action.mutable_gpu_data, healthy Brew.GPU),
   (Action.cpu_data, healthy Brew.GPU),
   (Action.set_cpu_data 12288, healthy Brew.GPU),
   (Action.async_gpu_push 1, healthy Brew.GPU),
   (Action.mutable_cpu_data, healthy Brew.GPU),
   (Action.gpu_data, healthy Brew.GPU),
   (Action.set_gpu_data 16384, healthy Brew.GPU)]

/-! ## Auxiliary facts -/

theorem hostAllocationFailed_contains_size (size : Nat) :
    contains_size (hostAllocationFailed size) size := by
  unfold contains_size hostAllocationFailed
  simp only [String.data_append]
  exact ⟨_, _, rfl⟩

theorem hostAllocationFailed_names (size : Nat) :
    names_host_allocation (hostAllocationFailed size) := by
  unfold names_host_allocation hostAllocationFailed
  simp only [String.data_append]
  refine ⟨"".data, (" of size ".data ++ (toString size).data) ++ " failed".data, ?_⟩
  simp [List.append_assoc]

/-! ## The host allocator: theorems -/

/-- C1. `CaffeMallocHost` takes the pinned path (its one external call is
`cudaMallocHost(ptr, size)`) and returns with `use_cuda = true` exactly when
`CPU_ONLY` is not defined, the mode is `GPU` and the pinned allocation reported
success; on every other normal return it reports `use_cuda = false`. -/
theorem CaffeMallocHost_use_cuda_iff (cfg : Build) (mode : Brew) (ext : HostAllocators)
    (ptr : Ptr) (size : Nat) (use_cuda : Bool) :
    (((CaffeMallocHost cfg mode ext ptr size use_cuda).calls = [Call.cudaMallocHost size] ∧
        ∃ p, (CaffeMallocHost cfg mode ext ptr size use_cuda).result = .ok (p, true)) ↔
      (cfg.CPU_ONLY = false ∧ mode = Brew.GPU ∧
        (ext.cudaMallocHost size).1 = cudaSuccess)) ∧
    (∀ p u, (CaffeMallocHost cfg mode ext ptr size use_cuda).result = .ok (p, u) →
      ¬ (cfg.CPU_ONLY = false ∧ mode = Brew.GPU ∧
        (ext.cudaMallocHost size).1 = cudaSuccess) → u = false) := by
  unfold CaffeMallocHost
  dsimp only
  constructor
  · split_ifs <;> simp_all
  · intro p u
    split_ifs <;> simp_all

/-- C1, at a concrete input: a generic build in CPU mode returns the address
4096 with `use_cuda = false`. -/
theorem CaffeMallocHost_use_cuda_iff_witness :
    (CaffeMallocHost ⟨false, false⟩ Brew.CPU plentiful NULL 16 true).result
        = .ok (4096, false) ∧
      ¬ ((⟨false, false⟩ : Build).CPU_ONLY = false ∧ Brew.CPU = Brew.GPU ∧
        (plentiful.cudaMallocHost 16).1 = cudaSuccess) ∧
      false = false :=
  ⟨by decide, by decide,
    (CaffeMallocHost_use_cuda_iff ⟨false, false⟩ Brew.CPU plentiful NULL 16 true).2
      4096 false (by decide) (by decide)⟩

/-- C2, refuted as stated: in a build with accelerator support and in GPU mode,
a pinned allocation of zero bytes that reports success and stores the null
address makes `CaffeMallocHost` return normally, handing back the null pointer. -/
theorem CaffeMallocHost_pinned_null_returns :
    CaffeMallocHost ⟨false, false⟩ Brew.GPU pinned_null NULL 0 false
      = ⟨[Call.cudaMallocHost 0], .ok (NULL, true)⟩ ∧
    ¬ (∀ (cfg : Build) (mode : Brew) (ext : HostAllocators) (ptr : Ptr) (size : Nat)
        (use_cuda : Bool) (p : Ptr) (u : Bool),
        (CaffeMallocHost cfg mode ext ptr size use_cuda).result = .ok (p, u) → p ≠ NULL) := by
  refine ⟨rfl, fun h => ?_⟩
  exact h ⟨false, false⟩ Brew.GPU pinned_null NULL 0 false NULL true rfl rfl

/-- C2, amended. On the path that is not pinned (`mkl_malloc` or `malloc`), a
null address makes `CaffeMallocHost` abort, so every normal return with
`use_cuda = false` hands back a non-null pointer, a request of size 0 included.
On the pinned path the abort is decided by the status alone: a status other than
`cudaSuccess` aborts, and under `cudaSuccess` the call returns the address that
`cudaMallocHost` stored, with no null check. -/
theorem CaffeMallocHost_null_check (cfg : Build) (mode : Brew) (ext : HostAllocators)
    (ptr : Ptr) (size : Nat) (use_cuda : Bool) :
    (¬ (cfg.CPU_ONLY = false ∧ mode = Brew.GPU) →
      ((if cfg.USE_MKL = true then ext.mkl_malloc (max size 1) 64 else ext.malloc size) = NULL →
        (CaffeMallocHost cfg mode ext ptr size use_cuda).result
          = .error (Fatal.CHECK (hostAllocationFailed size))) ∧
      ((if cfg.USE_MKL = true then ext.mkl_malloc (max size 1) 64 else ext.malloc size) ≠ NULL →
        (CaffeMallocHost cfg mode ext ptr size use_cuda).result
          = .ok ((if cfg.USE_MKL = true then ext.mkl_malloc (max size 1) 64
                  else ext.malloc size), false))) ∧
    (∀ p, (CaffeMallocHost cfg mode ext ptr size use_cuda).result = .ok (p, false) →
      p ≠ NULL) ∧
    (cfg.CPU_ONLY = false ∧ mode = Brew.GPU →
      ((ext.cudaMallocHost size).1 ≠ cudaSuccess →
        (CaffeMallocHost cfg mode ext ptr size use_cuda).result
          = .error (Fatal.CUDA_CHECK (ext.cudaMallocHost size).1)) ∧
      ((ext.cudaMallocHost size).1 = cudaSuccess →
        (CaffeMallocHost cfg mode ext ptr size use_cuda).result
          = .ok ((ext.cudaMallocHost size).2, true))) := by
  have hmax : max size 1 = if size ≠ 0 then size else 1 := by
    split_ifs <;> omega
  unfold CaffeMallocHost
  dsimp only
  rw [hmax]
  refine ⟨?_, ?_, ?_⟩
  · intro h
    split_ifs <;> simp_all
  · intro p
    split_ifs <;> simp_all
    all_goals (rintro rfl; assumption)
  · intro h
    split_ifs <;> simp_all

/-- C2 amended, at concrete inputs: a generic build asked for 0 bytes whose
`malloc` returns null aborts; in GPU mode a failing status aborts. -/
theorem CaffeMallocHost_null_check_witness :
    (CaffeMallocHost ⟨true, false⟩ Brew.CPU exhausted NULL 0 false).result
        = .error (Fatal.CHECK (hostAllocationFailed 0)) ∧
    (CaffeMallocHost ⟨false, false⟩ Brew.GPU exhausted NULL 8 false).result
        = .error (Fatal.CUDA_CHECK 2) :=
  ⟨((CaffeMallocHost_null_check ⟨true, false⟩ Brew.CPU exhausted NULL 0 false).1
      (by decide)).1 (by decide),
   ((CaffeMallocHost_null_check ⟨false, false⟩ Brew.GPU exhausted NULL 8 false).2.2
      (by decide)).1 (by decide)⟩

/-- C3. Within one build configuration, when `CaffeMallocHost` returns normally
with `(p, u)` it has made exactly one allocation call, and
`CaffeFreeHost(p, u)` makes exactly one release call, the one that matches that
allocation: `cudaFreeHost` for `cudaMallocHost`, `mkl_free` for `mkl_malloc`,
`free` for `malloc`. -/
theorem CaffeFreeHost_matches_CaffeMallocHost (cfg : Build) (mode : Brew)
    (ext : HostAllocators) (cudaFreeHost : Ptr → cudaError_t)
    (ptr : Ptr) (size : Nat) (use_cuda : Bool) (p : Ptr) (u : Bool)
    (h : (CaffeMallocHost cfg mode ext ptr size use_cuda).result = .ok (p, u)) :
    ∃ a d, (CaffeMallocHost cfg mode ext ptr size use_cuda).calls = [a] ∧
      matching_free a p = some d ∧
      (CaffeFreeHost cfg cudaFreeHost p u).calls = [d] := by
  unfold CaffeMallocHost at h ⊢
  unfold CaffeFreeHost
  dsimp only at h ⊢
  split_ifs at h ⊢ <;> simp_all [matching_free]

/-- C3, at a concrete input: an MKL build in CPU mode allocates with
`mkl_malloc` and releases with `mkl_free`. -/
theorem CaffeFreeHost_matches_CaffeMallocHost_witness :
    (CaffeMallocHost ⟨false, true⟩ Brew.CPU plentiful NULL 16 false).result
        = .ok (4096, false) ∧
    ∃ a d, (CaffeMallocHost ⟨false, true⟩ Brew.CPU plentiful NULL 16 false).calls = [a] ∧
      matching_free a 4096 = some d ∧
      (CaffeFreeHost ⟨false, true⟩ (fun _ => cudaSuccess) 4096 false).calls = [d] :=
  ⟨by decide,
    CaffeFreeHost_matches_CaffeMallocHost ⟨false, true⟩ Brew.CPU plentiful
      (fun _ => cudaSuccess) NULL 16 false 4096 false (by decide)⟩

/-- C8. Whenever `CaffeMallocHost` does not take the pinned path, its one
external call is `mkl_malloc(max(size, 1), 64)` if `USE_MKL` is defined and
`malloc(size)` otherwise: under MKL a request of 0 bytes becomes one of 1 byte
and every other size is passed unchanged; `malloc` is passed `size` unchanged,
0 included. -/
theorem CaffeMallocHost_fallback_call (cfg : Build) (mode : Brew) (ext : HostAllocators)
    (ptr : Ptr) (size : Nat) (use_cuda : Bool)
    (h : Call.cudaMallocHost size ∉ (CaffeMallocHost cfg mode ext ptr size use_cuda).calls) :
    (CaffeMallocHost cfg mode ext ptr size use_cuda).calls =
        [if cfg.USE_MKL = true then Call.mkl_malloc (max size 1) 64 else Call.malloc size] ∧
      (cfg.USE_MKL = true → size = 0 →
        (CaffeMallocHost cfg mode ext ptr size use_cuda).calls = [Call.mkl_malloc 1 64]) ∧
      (cfg.USE_MKL = true → size ≠ 0 →
        (CaffeMallocHost cfg mode ext ptr size use_cuda).calls = [Call.mkl_malloc size 64]) ∧
      (cfg.USE_MKL = false →
        (CaffeMallocHost cfg mode ext ptr size use_cuda).calls = [Call.malloc size]) := by
  have hmax : max size 1 = if size ≠ 0 then size else 1 := by
    split_ifs <;> omega
  unfold CaffeMallocHost at h ⊢
  dsimp only at h ⊢
  rw [hmax]
  split_ifs at h ⊢ <;> simp_all

/-- C8, at a concrete input: an MKL build asked for 0 bytes in CPU mode calls
`mkl_malloc(1, 64)`. -/
theorem CaffeMallocHost_fallback_call_witness :
    Call.cudaMallocHost 0 ∉ (CaffeMallocHost ⟨false, true⟩ Brew.CPU plentiful NULL 0 false).calls ∧
    (CaffeMallocHost ⟨false, true⟩ Brew.CPU plentiful NULL 0 false).calls
      = [Call.mkl_malloc 1 64] :=
  ⟨by decide,
    (CaffeMallocHost_fallback_call ⟨false, true⟩ Brew.CPU plentiful NULL 0 false
      (by decide)).2.1 rfl rfl⟩

/-- C9, refuted as stated: in a build with accelerator support and in GPU mode,
a pinned allocation of 1024 bytes (a `size_t` value) that fails with status 2
aborts through `CUDA_CHECK` with the diagnostic
"Check failed: error == cudaSuccess (2 vs. 0)  out of memory", which does not
contain the requested size; the same request for 1 byte aborts with the very
same diagnostic. -/
theorem CaffeMallocHost_pinned_diagnostic_lacks_size :
    1024 ≤ SIZE_MAX ∧
    CaffeMallocHost ⟨false, false⟩ Brew.GPU exhausted NULL 1024 false
      = ⟨[Call.cudaMallocHost 1024], .error (Fatal.CUDA_CHECK 2)⟩ ∧
    (Fatal.CUDA_CHECK 2).text (CUDA_CHECK_text (fun _ => "out of memory"))
      = "Check failed: error == cudaSuccess (2 vs. 0)  out of memory" ∧
    ¬ contains_size
      ((Fatal.CUDA_CHECK 2).text (CUDA_CHECK_text (fun _ => "out of memory"))) 1024 ∧
    (CaffeMallocHost ⟨false, false⟩ Brew.GPU exhausted NULL 1 false).result
      = (CaffeMallocHost ⟨false, false⟩ Brew.GPU exhausted NULL 1024 false).result := by
  refine ⟨by decide, rfl, by decide, by decide, rfl⟩

/-- C9, amended. When the host allocation fails, the diagnostic identifies the
failed operation: it is a `CHECK` diagnostic exactly when the failed call is
`mkl_malloc` or `malloc`, and a `CUDA_CHECK` diagnostic, carrying the status
that was reported, exactly when the failed call is `cudaMallocHost`. On the
`mkl_malloc` and `malloc` paths the text is "host allocation of size N failed",
which names the operation and contains the requested size `N`. On the pinned
path the text is that of `CUDA_CHECK` for the status: it is fixed by the status
and is the same for every requested size. -/
theorem CaffeMallocHost_diagnostic (cfg : Build) (mode : Brew) (ext : HostAllocators)
    (ptr : Ptr) (size : Nat) (use_cuda : Bool) (d : Fatal)
    (cuda_check_text : cudaError_t → String)
    (h : (CaffeMallocHost cfg mode ext ptr size use_cuda).result = .error d) :
    (¬ (cfg.CPU_ONLY = false ∧ mode = Brew.GPU) →
      (CaffeMallocHost cfg mode ext ptr size use_cuda).calls =
        [if cfg.USE_MKL = true then Call.mkl_malloc (max size 1) 64 else Call.malloc size] ∧
      d = Fatal.CHECK (hostAllocationFailed size) ∧
      names_host_allocation (d.text cuda_check_text) ∧
      contains_size (d.text cuda_check_text) size) ∧
    (cfg.CPU_ONLY = false ∧ mode = Brew.GPU →
      (CaffeMallocHost cfg mode ext ptr size use_cuda).calls = [Call.cudaMallocHost size] ∧
      (ext.cudaMallocHost size).1 ≠ cudaSuccess ∧
      d = Fatal.CUDA_CHECK (ext.cudaMallocHost size).1 ∧
      d.text cuda_check_text = cuda_check_text (ext.cudaMallocHost size).1) ∧
    ((∃ e, d = Fatal.CUDA_CHECK e) ↔
      (CaffeMallocHost cfg mode ext ptr size use_cuda).calls = [Call.cudaMallocHost size]) ∧
    ((∃ message, d = Fatal.CHECK message) ↔
      (CaffeMallocHost cfg mode ext ptr size use_cuda).calls ≠ [Call.cudaMallocHost size]) := by
  have hc := hostAllocationFailed_contains_size size
  have hn := hostAllocationFailed_names size
  have hmax : max size 1 = if size ≠ 0 then size else 1 := by
    split_ifs <;> omega
  unfold CaffeMallocHost at h ⊢
  dsimp only at h ⊢
  rw [hmax]
  split_ifs at h ⊢ <;> simp_all [Fatal.text] <;> subst h <;> simp_all [Fatal.text]

/-- C9 amended, at a concrete input: a generic CPU-only build whose `malloc`
fails for 1024 bytes. -/
theorem CaffeMallocHost_diagnostic_witness :
    (CaffeMallocHost ⟨true, false⟩ Brew.CPU exhausted NULL 1024 false).result
        = .error (Fatal.CHECK (hostAllocationFailed 1024)) ∧
    contains_size ((Fatal.CHECK (hostAllocationFailed 1024)).text
      (CUDA_CHECK_text (fun _ => "out of memory"))) 1024 :=
  ⟨by decide,
    ((CaffeMallocHost_diagnostic ⟨true, false⟩ Brew.CPU exhausted NULL 1024 false
      (Fatal.CHECK (hostAllocationFailed 1024)) (CUDA_CHECK_text (fun _ => "out of memory"))
      (by decide)).1 (by decide)).2.2.2⟩

/-- C10. In a build with `CPU_ONLY` defined, for every size, mode and prior
value of the output flag, `CaffeMallocHost` reports `use_cuda = false` on normal
return and does not depend on the prior flag; `CaffeFreeHost` makes the single
call `mkl_free(ptr)` (under `USE_MKL`) or `free(ptr)` and returns, whatever flag
it is given. -/
theorem CPU_ONLY_never_pinned (cfg : Build) (mode : Brew) (ext : HostAllocators)
    (cudaFreeHost : Ptr → cudaError_t) (ptr : Ptr) (size : Nat) (use_cuda : Bool)
    (h : cfg.CPU_ONLY = true) :
    (∀ p u, (CaffeMallocHost cfg mode ext ptr size use_cuda).result = .ok (p, u) →
      u = false) ∧
    CaffeMallocHost cfg mode ext ptr size use_cuda
      = CaffeMallocHost cfg mode ext ptr size (!use_cuda) ∧
    (∀ q flag, CaffeFreeHost cfg cudaFreeHost q flag
      = ⟨[if cfg.USE_MKL = true then Call.mkl_free q else Call.free q], .ok ()⟩) ∧
    (∀ q, CaffeFreeHost cfg cudaFreeHost q true = CaffeFreeHost cfg cudaFreeHost q false) := by
  unfold CaffeMallocHost CaffeFreeHost
  dsimp only
  refine ⟨?_, rfl, ?_, ?_⟩
  · intro p u
    split_ifs <;> simp_all
  · intro q flag
    split_ifs <;> simp_all
  · intro q
    simp [h]

/-- C10, at a concrete input: a CPU-only generic build in GPU mode with the
flag previously true. -/
theorem CPU_ONLY_never_pinned_witness :
    (⟨true, false⟩ : Build).CPU_ONLY = true ∧
    (CaffeMallocHost ⟨true, false⟩ Brew.GPU plentiful NULL 16 true).result
        = .ok (4096, false) ∧
    false = false :=
  ⟨rfl, by decide,
    (CPU_ONLY_never_pinned ⟨true, false⟩ Brew.GPU plentiful (fun _ => 2) NULL 16 true rfl).1
      4096 false (by decide)⟩


/-! ## The synchronized buffer: auxiliary facts -/

theorem run_invariant (cfg : Build) (P : Machine → Prop)
    (hstep : ∀ m a m1, P m → step cfg m a = .ok m1 → P m1) :
    ∀ (acts : List (Action × Runtime)) (m m1 : Machine),
      P m → run cfg m acts = .ok m1 → P m1 := by
  intro acts
  induction acts with
  | nil =>
    intro m m1 hP h
    simp only [run, Except.ok.injEq] at h
    exact h ▸ hP
  | cons a rest ih =>
    intro m m1 hP h
    simp only [run] at h
    split at h
    · cases h
    · next m2 h2 => exact ih m2 m1 (hstep m a m2 hP h2) h

theorem CaffeMallocHost_null_is_pinned (cfg : Build) (mode : Brew) (ext : HostAllocators)
    (ptr : Ptr) (size : Nat) (use_cuda : Bool) (u : Bool)
    (h : (CaffeMallocHost cfg mode ext ptr size use_cuda).result = .ok (NULL, u)) :
    u = true := by
  unfold CaffeMallocHost at h
  dsimp only at h
  split_ifs at h <;> simp_all

theorem allocate_host_cases (cfg : Build) (rt : Runtime) (m m1 : Machine)
    (h : allocate_host cfg rt m = .ok m1) :
    ∃ p u, (CaffeMallocHost cfg rt.mode rt.host m.mem.cpu_ptr_ m.mem.size_
        m.mem.cpu_malloc_use_cuda_).result = .ok (p, u) ∧
      m1 = { m with
        mem := { m.mem with cpu_ptr_ := p, cpu_malloc_use_cuda_ := u, own_cpu_data_ := true }
        calls := m.calls ++ (CaffeMallocHost cfg rt.mode rt.host m.mem.cpu_ptr_ m.mem.size_
          m.mem.cpu_malloc_use_cuda_).calls } := by
  unfold allocate_host at h
  dsimp only at h
  split at h
  · cases h
  · next p u hr =>
    simp only [Except.ok.injEq] at h
    exact ⟨p, u, hr, h.symm⟩

theorem allocate_device_cases (rt : Runtime) (m m1 : Machine)
    (h : allocate_device rt m = .ok m1) :
    (rt.device_allocate m.mem.size_).1 = cudaSuccess ∧
      (rt.device_allocate m.mem.size_).2 ≠ NULL ∧
      m1 = { m with
        mem := { m.mem with gpu_ptr_ := (rt.device_allocate m.mem.size_).2,
                            own_gpu_data_ := true, device_ := rt.current_device }
        calls := m.calls ++ [Call.device_allocate m.mem.size_] } := by
  unfold allocate_device at h
  dsimp only at h
  by_cases hs : (rt.device_allocate m.mem.size_).1 = cudaSuccess
  · rw [if_neg (not_not.mpr hs)] at h
    by_cases hn : (rt.device_allocate m.mem.size_).2 = NULL
    · rw [if_pos hn] at h; cases h
    · rw [if_neg hn] at h
      simp only [Except.ok.injEq] at h
      exact ⟨hs, hn, h.symm⟩
  · rw [if_pos hs] at h; cases h

theorem maybe_allocate_host_null (cfg : Build) (rt : Runtime) (c : Prop) [Decidable c]
    (m m0 : Machine) (h : (if c then allocate_host cfg rt m else .ok m) = .ok m0) :
    (c → m0.mem.own_cpu_data_ = true ∧
      (m0.mem.cpu_ptr_ = NULL → m0.mem.cpu_malloc_use_cuda_ = true)) ∧
    (¬ c → m0 = m) ∧
    m0.mem.gpu_ptr_ = m.mem.gpu_ptr_ ∧ m0.mem.own_gpu_data_ = m.mem.own_gpu_data_ := by
  by_cases hc : c
  · rw [if_pos hc] at h
    obtain ⟨p, u, hr, rfl⟩ := allocate_host_cases cfg rt m m0 h
    refine ⟨fun _ => ⟨rfl, ?_⟩, fun hn => absurd hc hn, rfl, rfl⟩
    intro hp
    dsimp only at hp ⊢
    subst hp
    exact CaffeMallocHost_null_is_pinned _ _ _ _ _ _ _ hr
  · rw [if_neg hc] at h
    simp only [Except.ok.injEq] at h
    subst h
    exact ⟨fun h1 => absurd h1 hc, fun _ => rfl, rfl, rfl⟩

theorem maybe_allocate_device_set (rt : Runtime) (c : Prop) [Decidable c]
    (m m0 : Machine) (h : (if c then allocate_device rt m else .ok m) = .ok m0) :
    (c → m0.mem.gpu_ptr_ ≠ NULL) ∧
    (¬ c → m0 = m) ∧
    m0.mem.cpu_ptr_ = m.mem.cpu_ptr_ ∧ m0.mem.own_cpu_data_ = m.mem.own_cpu_data_ ∧
    m0.mem.cpu_malloc_use_cuda_ = m.mem.cpu_malloc_use_cuda_ := by
  by_cases hc : c
  · rw [if_pos hc] at h
    obtain ⟨hs, hn, rfl⟩ := allocate_device_cases rt m m0 h
    exact ⟨fun _ => hn, fun hn => absurd hc hn, rfl, rfl, rfl⟩
  · rw [if_neg hc] at h
    simp only [Except.ok.injEq] at h
    subst h
    exact ⟨fun h1 => absurd h1 hc, fun _ => rfl, rfl, rfl, rfl⟩

theorem to_cpu_cases (cfg : Build) (rt : Runtime) (m m1 : Machine)
    (h : to_cpu cfg rt m = .ok m1) :
    (m.mem.head_ = SyncedHead.UNINITIALIZED ∧ ∃ m0, allocate_host cfg rt m = .ok m0 ∧
      m1 = { m0 with
        mem := { m0.mem with head_ := SyncedHead.HEAD_AT_CPU }
        host := zeroed m0.host m0.mem.cpu_ptr_ m0.mem.size_
        calls := m0.calls ++ [Call.host_zero m0.mem.cpu_ptr_ m0.mem.size_] }) ∨
    (m.mem.head_ = SyncedHead.HEAD_AT_GPU ∧ rt.device_copy = cudaSuccess ∧
      ∃ m0, (if m.mem.cpu_ptr_ = NULL then allocate_host cfg rt m else .ok m) = .ok m0 ∧
      m1 = { m0 with
        mem := { m0.mem with head_ := SyncedHead.SYNCED }
        host := copied m0.host m0.mem.cpu_ptr_ m0.device m0.mem.gpu_ptr_ m0.mem.size_
        calls := m0.calls ++
          [Call.copy_device_to_host m0.mem.cpu_ptr_ m0.mem.gpu_ptr_ m0.mem.size_] }) ∨
    ((m.mem.head_ = SyncedHead.HEAD_AT_CPU ∨ m.mem.head_ = SyncedHead.SYNCED) ∧ m1 = m) := by
  unfold to_cpu at h
  split at h
  · next hh =>
    left
    split at h
    · cases h
    · next m0 h0 =>
      simp only [Except.ok.injEq] at h
      exact ⟨hh, m0, h0, h.symm⟩
  · next hh =>
    right; left
    split at h
    · cases h
    · next m0 h0 =>
      split_ifs at h with hc
      simp only [Except.ok.injEq] at h
      exact ⟨hh, hc, m0, h0, h.symm⟩
  · next hh =>
    simp only [Except.ok.injEq] at h
    exact Or.inr (Or.inr ⟨Or.inl hh, h.symm⟩)
  · next hh =>
    simp only [Except.ok.injEq] at h
    exact Or.inr (Or.inr ⟨Or.inr hh, h.symm⟩)

theorem to_gpu_cases (rt : Runtime) (m m1 : Machine)
    (h : to_gpu rt m = .ok m1) :
    check_device rt m = .ok () ∧
    ((m.mem.head_ = SyncedHead.UNINITIALIZED ∧ rt.device_zero = cudaSuccess ∧
      ∃ m0, allocate_device rt m = .ok m0 ∧
      m1 = { m0 with
        mem := { m0.mem with head_ := SyncedHead.HEAD_AT_GPU }
        device := zeroed m0.device m0.mem.gpu_ptr_ m0.mem.size_
        calls := m0.calls ++ [Call.device_zero m0.mem.gpu_ptr_ m0.mem.size_] }) ∨
    (m.mem.head_ = SyncedHead.HEAD_AT_CPU ∧ rt.device_copy = cudaSuccess ∧
      ∃ m0, (if m.mem.gpu_ptr_ = NULL then allocate_device rt m else .ok m) = .ok m0 ∧
      m1 = { m0 with
        mem := { m0.mem with head_ := SyncedHead.SYNCED }
        device := copied m0.device m0.mem.gpu_ptr_ m0.host m0.mem.cpu_ptr_ m0.mem.size_
        calls := m0.calls ++
          [Call.copy_host_to_device m0.mem.gpu_ptr_ m0.mem.cpu_ptr_ m0.mem.size_] }) ∨
    ((m.mem.head_ = SyncedHead.HEAD_AT_GPU ∨ m.mem.head_ = SyncedHead.SYNCED) ∧ m1 = m)) := by
  unfold to_gpu at h
  split at h
  · cases h
  · next hcd =>
    refine ⟨hcd, ?_⟩
    split at h
    · next hh =>
      left
      split at h
      · cases h
      · next m0 h0 =>
        split_ifs at h with hc
        simp only [Except.ok.injEq] at h
        exact ⟨hh, hc, m0, h0, h.symm⟩
    · next hh =>
      right; left
      split at h
      · cases h
      · next m0 h0 =>
        split_ifs at h with hc
        simp only [Except.ok.injEq] at h
        exact ⟨hh, hc, m0, h0, h.symm⟩
    · next hh =>
      simp only [Except.ok.injEq] at h
      exact Or.inr (Or.inr ⟨Or.inl hh, h.symm⟩)
    · next hh =>
      simp only [Except.ok.injEq] at h
      exact Or.inr (Or.inr ⟨Or.inr hh, h.symm⟩)


theorem deviceToHostCopies_append (xs ys : List Call) :
    deviceToHostCopies (xs ++ ys) = deviceToHostCopies xs + deviceToHostCopies ys := by
  induction xs with
  | nil => simp [deviceToHostCopies]
  | cons x xs ih =>
    cases x <;> simp [deviceToHostCopies, ih]
    omega

theorem CaffeMallocHost_no_copy (cfg : Build) (mode : Brew) (ext : HostAllocators)
    (ptr : Ptr) (size : Nat) (use_cuda : Bool) :
    deviceToHostCopies (CaffeMallocHost cfg mode ext ptr size use_cuda).calls = 0 := by
  unfold CaffeMallocHost
  dsimp only
  split_ifs <;> rfl

theorem maybe_allocate_host_frame (cfg : Build) (rt : Runtime) (c : Prop) [Decidable c]
    (m m0 : Machine) (h : (if c then allocate_host cfg rt m else .ok m) = .ok m0) :
    m0.mem.size_ = m.mem.size_ ∧ m0.mem.head_ = m.mem.head_ ∧
      m0.mem.gpu_ptr_ = m.mem.gpu_ptr_ ∧ m0.device = m.device ∧
      deviceToHostCopies m0.calls = deviceToHostCopies m.calls := by
  split_ifs at h
  · obtain ⟨p, u, hr, rfl⟩ := allocate_host_cases cfg rt m m0 h
    refine ⟨rfl, rfl, rfl, rfl, ?_⟩
    dsimp only
    rw [deviceToHostCopies_append, CaffeMallocHost_no_copy, Nat.add_zero]
  · simp only [Except.ok.injEq] at h
    subst h
    exact ⟨rfl, rfl, rfl, rfl, rfl⟩

theorem maybe_allocate_device_frame (rt : Runtime) (c : Prop) [Decidable c]
    (m m0 : Machine) (h : (if c then allocate_device rt m else .ok m) = .ok m0) :
    m0.mem.size_ = m.mem.size_ ∧ m0.mem.head_ = m.mem.head_ ∧
      m0.mem.cpu_ptr_ = m.mem.cpu_ptr_ ∧ m0.host = m.host ∧
      deviceToHostCopies m0.calls = deviceToHostCopies m.calls := by
  split_ifs at h
  · obtain ⟨hs, hn, rfl⟩ := allocate_device_cases rt m m0 h
    refine ⟨rfl, rfl, rfl, rfl, ?_⟩
    dsimp only
    rw [deviceToHostCopies_append]
    rfl
  · simp only [Except.ok.injEq] at h
    subst h
    exact ⟨rfl, rfl, rfl, rfl, rfl⟩

theorem copied_at (dst : Nat → Nat) (d : Nat) (src : Nat → Nat) (s n i : Nat) (h : i < n) :
    copied dst d src s n (d + i) = src (s + i) := by
  unfold copied
  rw [if_pos ⟨by omega, by omega⟩]
  congr 1
  omega

theorem to_cpu_consistent (H D : Prop) (cfg : Build) (rt : Runtime) (m m1 : Machine)
    (h : to_cpu cfg rt m = .ok m1) (hc : Consistent H D m) :
    Consistent H D m1 ∧
      (m1.mem.head_ = SyncedHead.HEAD_AT_CPU ∨ m1.mem.head_ = SyncedHead.SYNCED) := by
  rcases to_cpu_cases cfg rt m m1 h with ⟨hh, m0, h0, rfl⟩ | ⟨hh, hcopy, m0, h0, rfl⟩ |
    ⟨hh, rfl⟩
  · obtain ⟨hA, -, hg, hog⟩ :=
      maybe_allocate_host_null cfg rt True m m0 (by simpa using h0)
    refine ⟨⟨?_, ?_, ?_, ?_, ?_, ?_⟩, Or.inl rfl⟩
    · intro h1; cases h1
    · intro _ h1
      exact Or.inr (Or.inr ⟨(hA trivial).1, (hA trivial).2 h1⟩)
    · intro _ _; exact Or.inr rfl
    · intro _ h1; exact (hA trivial).2 h1
    · intro h1
      dsimp only at h1 ⊢
      rw [hg]
      exact hc.owned_device (hog ▸ h1)
    · intro h1; cases h1
  · obtain ⟨hA, hB, hg, hog⟩ := maybe_allocate_host_null cfg rt _ m m0 h0
    refine ⟨⟨?_, ?_, ?_, ?_, ?_, ?_⟩, Or.inr rfl⟩
    · intro h1; cases h1
    · intro _ h1
      dsimp only at h1
      by_cases hn : m.mem.cpu_ptr_ = NULL
      · exact Or.inr (Or.inr ⟨(hA hn).1, (hA hn).2 h1⟩)
      · have := hB hn
        subst this
        exact absurd h1 hn
    · intro hD h1
      dsimp only at h1
      rcases hc.device_null hD (hg ▸ h1) with h2 | h2
      · rw [hh] at h2; cases h2
      · rw [hh] at h2; cases h2
    · intro ho h1
      dsimp only at ho h1 ⊢
      by_cases hn : m.mem.cpu_ptr_ = NULL
      · exact (hA hn).2 h1
      · have := hB hn
        subst this
        exact absurd h1 hn
    · intro h1
      dsimp only at h1 ⊢
      rw [hg]
      exact hc.owned_device (hog ▸ h1)
    · intro _ i hi
      exact copied_at _ _ _ _ _ i hi
  · exact ⟨hc, hh⟩

theorem to_gpu_consistent (H D : Prop) (rt : Runtime) (m m1 : Machine)
    (h : to_gpu rt m = .ok m1) (hc : Consistent H D m) :
    Consistent H D m1 ∧
      (m1.mem.head_ = SyncedHead.HEAD_AT_GPU ∨ m1.mem.head_ = SyncedHead.SYNCED) := by
  rcases (to_gpu_cases rt m m1 h).2 with ⟨hh, hz, m0, h0, rfl⟩ | ⟨hh, hcopy, m0, h0, rfl⟩ |
    ⟨hh, rfl⟩
  · obtain ⟨hA, -, hp, ho, hu⟩ :=
      maybe_allocate_device_set rt True m m0 (by simpa using h0)
    refine ⟨⟨?_, ?_, ?_, ?_, ?_, ?_⟩, Or.inl rfl⟩
    · intro h1; cases h1
    · intro _ _; exact Or.inr (Or.inl rfl)
    · intro _ h1; exact absurd h1 (hA trivial)
    · intro h1 h2
      dsimp only at h1 h2 ⊢
      rw [hu]
      exact hc.owned_host (ho ▸ h1) (hp ▸ h2)
    · intro _; exact hA trivial
    · intro h1; cases h1
  · obtain ⟨hA, hB, hp, ho, hu⟩ := maybe_allocate_device_set rt _ m m0 h0
    refine ⟨⟨?_, ?_, ?_, ?_, ?_, ?_⟩, Or.inr rfl⟩
    · intro h1; cases h1
    · intro hH h1
      dsimp only at h1 ⊢
      rcases hc.host_null hH (hp ▸ h1) with h2 | h2 | h2
      · rw [hh] at h2; cases h2
      · rw [hh] at h2; cases h2
      · exact Or.inr (Or.inr ⟨ho ▸ h2.1, hu ▸ h2.2⟩)
    · intro _ h1
      dsimp only at h1
      by_cases hn : m.mem.gpu_ptr_ = NULL
      · exact absurd h1 (hA hn)
      · have := hB hn
        subst this
        exact absurd h1 hn
    · intro h1 h2
      dsimp only at h1 h2 ⊢
      rw [hu]
      exact hc.owned_host (ho ▸ h1) (hp ▸ h2)
    · intro h1
      dsimp only at h1 ⊢
      by_cases hn : m.mem.gpu_ptr_ = NULL
      · exact hA hn
      · have := hB hn
        subst this
        exact hn
    · intro _ i hi
      exact (copied_at _ _ _ _ _ i hi).symm
  · exact ⟨hc, hh⟩

theorem set_gpu_data_cases (rt : Runtime) (data : Ptr) (m m1 : Machine)
    (h : set_gpu_data rt data m = .ok m1) :
    check_device rt m = .ok () ∧
    (m.mem.own_gpu_data_ = true → rt.device_free m.mem.gpu_ptr_ = cudaSuccess) ∧
    m1 = { m with
      mem := { m.mem with gpu_ptr_ := data, head_ := SyncedHead.HEAD_AT_GPU,
                          own_gpu_data_ := false }
      calls := m.calls ++
        (if m.mem.own_gpu_data_ = true then [Call.device_free m.mem.gpu_ptr_] else []) } := by
  unfold set_gpu_data at h
  split at h
  · cases h
  · next hcd =>
    by_cases hf : m.mem.own_gpu_data_ = true ∧ rt.device_free m.mem.gpu_ptr_ ≠ cudaSuccess
    · rw [if_pos hf] at h; cases h
    · rw [if_neg hf] at h
      simp only [Except.ok.injEq] at h
      refine ⟨hcd, ?_, h.symm⟩
      intro ho
      by_contra hne
      exact hf ⟨ho, hne⟩

theorem async_gpu_push_cases (rt : Runtime) (stream : Nat) (m m1 : Machine)
    (h : async_gpu_push rt stream m = .ok m1) :
    m.mem.head_ = SyncedHead.HEAD_AT_CPU ∧ check_device rt m = .ok () ∧
    rt.device_copy_async = cudaSuccess ∧
    ∃ m0, (if m.mem.gpu_ptr_ = NULL then allocate_device rt m else .ok m) = .ok m0 ∧
      m1 = { m0 with
        calls := m0.calls ++
          [Call.copy_async_host_to_device m0.mem.gpu_ptr_ m0.mem.cpu_ptr_
            m0.mem.size_ stream] } := by
  unfold async_gpu_push at h
  by_cases hh : m.mem.head_ = SyncedHead.HEAD_AT_CPU
  · rw [if_neg (not_not.mpr hh)] at h
    split at h
    · cases h
    · next hcd =>
      split at h
      · cases h
      · next m0 h0 =>
        by_cases hs : rt.device_copy_async = cudaSuccess
        · rw [if_pos hs] at h
          simp only [Except.ok.injEq] at h
          exact ⟨hh, hcd, hs, m0, h0, h.symm⟩
        · rw [if_neg hs] at h; cases h
  · rw [if_pos hh] at h; cases h

theorem step_consistent (H D : Prop) (cfg : Build) (m : Machine) (a : Action × Runtime)
    (m1 : Machine) (hq : a.1.attaches_set H D) (hc : Consistent H D m)
    (h : step cfg m a = .ok m1) : Consistent H D m1 := by
  obtain ⟨act, rt⟩ := a
  cases act with
  | cpu_data =>
    simp only [step, cpu_data] at h
    split at h
    · cases h
    · next m2 h2 =>
      simp only [Except.map, Except.ok.injEq] at h
      subst h
      exact (to_cpu_consistent H D cfg rt m m2 h2 hc).1
  | gpu_data =>
    simp only [step, gpu_data] at h
    split at h
    · cases h
    · split at h
      · cases h
      · next m2 h2 =>
        simp only [Except.map, Except.ok.injEq] at h
        subst h
        exact (to_gpu_consistent H D rt m m2 h2 hc).1
  | mutable_cpu_data =>
    simp only [step, mutable_cpu_data] at h
    split at h
    · cases h
    · next m2 h2 =>
      simp only [Except.map, Except.ok.injEq] at h
      subst h
      obtain ⟨h3, h4⟩ := to_cpu_consistent H D cfg rt m m2 h2 hc
      refine ⟨?_, ?_, ?_, h3.owned_host, h3.owned_device, ?_⟩
      · intro h1; cases h1
      · intro hH h1
        rcases h3.host_null hH h1 with h5 | h5 | h5
        · rcases h4 with h4 | h4 <;> rw [h4] at h5 <;> cases h5
        · rcases h4 with h4 | h4 <;> rw [h4] at h5 <;> cases h5
        · exact Or.inr (Or.inr h5)
      · intro _ _; exact Or.inr rfl
      · intro h1; cases h1
  | mutable_gpu_data =>
    simp only [step, mutable_gpu_data] at h
    split at h
    · cases h
    · split at h
      · cases h
      · next m2 h2 =>
        simp only [Except.map, Except.ok.injEq] at h
        subst h
        obtain ⟨h3, h4⟩ := to_gpu_consistent H D rt m m2 h2 hc
        refine ⟨?_, ?_, ?_, h3.owned_host, h3.owned_device, ?_⟩
        · intro h1; cases h1
        · intro _ _; exact Or.inr (Or.inl rfl)
        · intro hD h1
          rcases h3.device_null hD h1 with h5 | h5
          · rcases h4 with h4 | h4 <;> rw [h4] at h5 <;> cases h5
          · rcases h4 with h4 | h4 <;> rw [h4] at h5 <;> cases h5
        · intro h1; cases h1
  | set_cpu_data data =>
    simp only [step, set_cpu_data] at h
    split at h
    · cases h
    · simp only [Except.ok.injEq] at h
      subst h
      refine ⟨?_, ?_, ?_, ?_, hc.owned_device, ?_⟩
      · intro h1; cases h1
      · intro hH h1
        dsimp only at h1
        exact absurd (congrArg Action.set_cpu_data h1) (hq.1 hH)
      · intro _ _; exact Or.inr rfl
      · intro h1; cases h1
      · intro h1; cases h1
  | set_gpu_data data =>
    simp only [step] at h
    obtain ⟨_, _, rfl⟩ := set_gpu_data_cases rt data m m1 h
    refine ⟨?_, ?_, ?_, hc.owned_host, ?_, ?_⟩
    · intro h1; cases h1
    · intro _ _; exact Or.inr (Or.inl rfl)
    · intro hD h1
      dsimp only at h1
      exact absurd (congrArg Action.set_gpu_data h1) (hq.2 hD)
    · intro h1; cases h1
    · intro h1; cases h1
  | async_gpu_push stream =>
    simp only [step] at h
    obtain ⟨hh1, _, _, m2, h2, rfl⟩ := async_gpu_push_cases rt stream m m1 h
    obtain ⟨hA, hB, hp, ho, hu⟩ := maybe_allocate_device_set rt _ m m2 h2
    have hh2 : m2.mem.head_ = SyncedHead.HEAD_AT_CPU :=
      (maybe_allocate_device_frame rt _ m m2 h2).2.1.trans hh1
    refine ⟨?_, ?_, ?_, ?_, ?_, ?_⟩
    · intro h1
      dsimp only at h1
      rw [hh2] at h1; cases h1
    · intro hH h1
      dsimp only at h1 ⊢
      rcases hc.host_null hH (hp ▸ h1) with h5 | h5 | h5
      · rw [hh1] at h5; cases h5
      · rw [hh1] at h5; cases h5
      · exact Or.inr (Or.inr ⟨ho ▸ h5.1, hu ▸ h5.2⟩)
    · intro _ _
      exact Or.inr hh2
    · intro h1 h3
      dsimp only at h1 h3 ⊢
      rw [hu]
      exact hc.owned_host (ho ▸ h1) (hp ▸ h3)
    · intro h1
      dsimp only at h1 ⊢
      by_cases hn : m.mem.gpu_ptr_ = NULL
      · exact hA hn
      · have := hB hn
        subst this
        exact hc.owned_device h1
    · intro h1
      dsimp only at h1
      rw [hh2] at h1; cases h1

theorem fresh_consistent (H D : Prop) (size : Nat) (host device : Nat → Nat) :
    Consistent H D (fresh size host device) :=
  ⟨fun _ => ⟨rfl, rfl⟩, fun _ _ => Or.inl rfl, fun _ _ => Or.inl rfl,
    (fun h => by cases h), (fun h => by cases h), (fun h => by cases h)⟩

theorem run_invariant_of (cfg : Build) (P : Machine → Prop) (Q : Action × Runtime → Prop)
    (hstep : ∀ m a m1, Q a → P m → step cfg m a = .ok m1 → P m1) :
    ∀ (acts : List (Action × Runtime)) (m m1 : Machine),
      (∀ a ∈ acts, Q a) → P m → run cfg m acts = .ok m1 → P m1 := by
  intro acts
  induction acts with
  | nil =>
    intro m m1 _ hP h
    simp only [run, Except.ok.injEq] at h
    exact h ▸ hP
  | cons a rest ih =>
    intro m m1 hQ hP h
    simp only [run] at h
    split at h
    · cases h
    · next m2 h2 =>
      exact ih m2 m1 (fun b hb => hQ b (List.mem_cons_of_mem a hb))
        (hstep m a m2 (hQ a (List.mem_cons_self a rest)) hP h2) h

theorem to_cpu_size (cfg : Build) (rt : Runtime) (m m1 : Machine)
    (h : to_cpu cfg rt m = .ok m1) : m1.mem.size_ = m.mem.size_ := by
  rcases to_cpu_cases cfg rt m m1 h with ⟨hh, m0, h0, rfl⟩ | ⟨hh, hcopy, m0, h0, rfl⟩ |
    ⟨hh, rfl⟩
  · exact (maybe_allocate_host_frame cfg rt True m m0 (by simpa using h0)).1
  · exact (maybe_allocate_host_frame cfg rt _ m m0 h0).1
  · rfl

theorem to_gpu_size (rt : Runtime) (m m1 : Machine)
    (h : to_gpu rt m = .ok m1) : m1.mem.size_ = m.mem.size_ := by
  rcases (to_gpu_cases rt m m1 h).2 with ⟨hh, hz, m0, h0, rfl⟩ | ⟨hh, hcopy, m0, h0, rfl⟩ |
    ⟨hh, rfl⟩
  · exact (maybe_allocate_device_frame rt True m m0 (by simpa using h0)).1
  · exact (maybe_allocate_device_frame rt _ m m0 h0).1
  · rfl

theorem step_size (cfg : Build) (m : Machine) (a : Action × Runtime) (m1 : Machine)
    (h : step cfg m a = .ok m1) : m1.mem.size_ = m.mem.size_ := by
  obtain ⟨act, rt⟩ := a
  cases act with
  | cpu_data =>
    simp only [step, cpu_data] at h
    split at h
    · cases h
    · next m2 h2 =>
      simp only [Except.map, Except.ok.injEq] at h
      subst h
      exact to_cpu_size cfg rt m m2 h2
  | gpu_data =>
    simp only [step, gpu_data] at h
    split at h
    · cases h
    · split at h
      · cases h
      · next m2 h2 =>
        simp only [Except.map, Except.ok.injEq] at h
        subst h
        exact to_gpu_size rt m m2 h2
  | mutable_cpu_data =>
    simp only [step, mutable_cpu_data] at h
    split at h
    · cases h
    · next m2 h2 =>
      simp only [Except.map, Except.ok.injEq] at h
      subst h
      exact to_cpu_size cfg rt m m2 h2
  | mutable_gpu_data =>
    simp only [step, mutable_gpu_data] at h
    split at h
    · cases h
    · split at h
      · cases h
      · next m2 h2 =>
        simp only [Except.map, Except.ok.injEq] at h
        subst h
        exact to_gpu_size rt m m2 h2
  | set_cpu_data data =>
    simp only [step, set_cpu_data] at h
    split at h
    · cases h
    · simp only [Except.ok.injEq] at h
      subst h
      rfl
  | set_gpu_data data =>
    simp only [step] at h
    obtain ⟨_, _, rfl⟩ := set_gpu_data_cases rt data m m1 h
    rfl
  | async_gpu_push stream =>
    simp only [step] at h
    obtain ⟨_, _, _, m2, h2, rfl⟩ := async_gpu_push_cases rt stream m m1 h
    exact (maybe_allocate_device_frame rt _ m m2 h2).1


theorem mutable_gpu_data_returns (rt : Runtime) (m : Machine)
    (hh : m.mem.head_ = SyncedHead.UNINITIALIZED)
    (hcd : check_device rt m = .ok ())
    (ha : (rt.device_allocate m.mem.size_).1 = cudaSuccess)
    (hn : (rt.device_allocate m.mem.size_).2 ≠ NULL)
    (hz : rt.device_zero = cudaSuccess) :
    ∃ p1 m1, mutable_gpu_data rt m = .ok (p1, m1) ∧
      m1.mem.head_ = SyncedHead.HEAD_AT_GPU ∧ m1.mem.cpu_ptr_ = m.mem.cpu_ptr_ ∧
      m1.mem.size_ = m.mem.size_ ∧
      m1.mem.cpu_malloc_use_cuda_ = m.mem.cpu_malloc_use_cuda_ := by
  simp only [mutable_gpu_data, to_gpu, allocate_device, hh, hcd, ha, hn, hz, if_true,
    if_false, ne_eq, not_true_eq_false]
  exact ⟨_, _, rfl, rfl, rfl, rfl, rfl⟩

theorem to_cpu_returns (cfg : Build) (rt : Runtime) (m : Machine)
    (hh : m.mem.head_ = SyncedHead.HEAD_AT_GPU)
    (hcopy : rt.device_copy = cudaSuccess)
    (hhost : m.mem.cpu_ptr_ = NULL → ∃ p u, (CaffeMallocHost cfg rt.mode rt.host
      m.mem.cpu_ptr_ m.mem.size_ m.mem.cpu_malloc_use_cuda_).result = .ok (p, u)) :
    ∃ m1, to_cpu cfg rt m = .ok m1 := by
  by_cases hnull : m.mem.cpu_ptr_ = NULL
  · obtain ⟨p, u, hr⟩ := hhost hnull
    simp [to_cpu, allocate_host, hh, hcopy, hnull]
    rw [hnull] at hr
    simp [hr]
  · simp [to_cpu, hh, hcopy, hnull]

/-! ## The synchronized buffer: theorems -/

/-- C4. A buffer freshly constructed with a size has `head() == UNINITIALIZED`
and `size() == size`, and `size()` returns that same value after any sequence of
accessor, mutable-accessor, attach and asynchronous-push calls. -/
theorem size_is_fixed (cfg : Build) (size : Nat) (host device : Nat → Nat)
    (acts : List (Action × Runtime)) (m : Machine)
    (h : run cfg (fresh size host device) acts = .ok m) :
    (SyncedMemory.create size).head = SyncedHead.UNINITIALIZED ∧
      (SyncedMemory.create size).size = size ∧
      (fresh size host device).mem = SyncedMemory.create size ∧
      m.mem.size = size := by
  refine ⟨rfl, rfl, rfl, ?_⟩
  exact run_invariant cfg (fun x => x.mem.size_ = size)
    (fun x a x1 hx hs => (step_size cfg x a x1 hs).trans hx) acts _ m rfl h

/-- C4, at a concrete input: a buffer of 4 bytes after the seven calls of
`busy`, one of each kind of operation. -/
theorem size_is_fixed_witness :
    run ⟨false, false⟩ (fresh 4 (fun _ => 7) (fun _ => 9)) busy
        = .ok (run_or ⟨false, false⟩ (fresh 4 (fun _ => 7) (fun _ => 9)) busy) ∧
    (run_or ⟨false, false⟩ (fresh 4 (fun _ => 7) (fun _ => 9)) busy).mem.size = 4 :=
  ⟨rfl, (size_is_fixed ⟨false, false⟩ 4 (fun _ => 7) (fun _ => 9) busy _ rfl).2.2.2⟩

/-- C5. From a buffer in state `UNINITIALIZED`, `mutable_gpu_data` followed by
`cpu_data` performs exactly one device-to-host copy and ends with
`head() == SYNCED`; the two calls return whenever the device runtime and the
host allocator report no failure (a device allocation that returns the null
address is a failure). `to_cpu` on a buffer in `HEAD_AT_GPU`
allocates host memory only if none is present, copies device to host and sets
head to `SYNCED`; on `HEAD_AT_CPU` or `SYNCED` it changes nothing. -/
theorem to_cpu_after_mutable_gpu_data (cfg : Build) (rt1 rt2 : Runtime) (m : Machine) :
    (m.mem.head = SyncedHead.UNINITIALIZED →
      ∀ p1 m1 p2 m2, mutable_gpu_data rt1 m = .ok (p1, m1) →
        cpu_data cfg rt2 m1 = .ok (p2, m2) →
        m2.mem.head = SyncedHead.SYNCED ∧
          deviceToHostCopies m2.calls = deviceToHostCopies m.calls + 1) ∧
    (m.mem.head = SyncedHead.UNINITIALIZED →
      check_device rt1 m = .ok () →
      (rt1.device_allocate m.mem.size_).1 = cudaSuccess →
      (rt1.device_allocate m.mem.size_).2 ≠ NULL →
      rt1.device_zero = cudaSuccess →
      rt2.device_copy = cudaSuccess →
      (m.mem.cpu_ptr_ = NULL → ∃ p u, (CaffeMallocHost cfg rt2.mode rt2.host
        m.mem.cpu_ptr_ m.mem.size_ m.mem.cpu_malloc_use_cuda_).result = .ok (p, u)) →
      ∃ p1 m1 p2 m2, mutable_gpu_data rt1 m = .ok (p1, m1) ∧
        cpu_data cfg rt2 m1 = .ok (p2, m2)) ∧
    (m.mem.head = SyncedHead.HEAD_AT_GPU → m.mem.cpu_ptr_ ≠ NULL →
      rt2.device_copy = cudaSuccess →
      to_cpu cfg rt2 m = .ok { m with
        mem := { m.mem with head_ := SyncedHead.SYNCED }
        host := copied m.host m.mem.cpu_ptr_ m.device m.mem.gpu_ptr_ m.mem.size_
        calls := m.calls ++
          [Call.copy_device_to_host m.mem.cpu_ptr_ m.mem.gpu_ptr_ m.mem.size_] }) ∧
    (m.mem.head = SyncedHead.HEAD_AT_GPU → m.mem.cpu_ptr_ = NULL →
      rt2.device_copy = cudaSuccess →
      ∀ p u, (CaffeMallocHost cfg rt2.mode rt2.host m.mem.cpu_ptr_ m.mem.size_
        m.mem.cpu_malloc_use_cuda_).result = .ok (p, u) →
      to_cpu cfg rt2 m = .ok { m with
        mem := { m.mem with cpu_ptr_ := p, cpu_malloc_use_cuda_ := u, own_cpu_data_ := true,
                            head_ := SyncedHead.SYNCED }
        host := copied m.host p m.device m.mem.gpu_ptr_ m.mem.size_
        calls := m.calls ++ (CaffeMallocHost cfg rt2.mode rt2.host m.mem.cpu_ptr_ m.mem.size_
          m.mem.cpu_malloc_use_cuda_).calls ++
          [Call.copy_device_to_host p m.mem.gpu_ptr_ m.mem.size_] }) ∧
    (m.mem.head = SyncedHead.HEAD_AT_CPU ∨ m.mem.head = SyncedHead.SYNCED →
      to_cpu cfg rt2 m = .ok m) := by
  refine ⟨?_, ?_, ?_, ?_, ?_⟩
  · intro hh p1 m1 p2 m2 h1 h2
    change m.mem.head_ = _ at hh
    unfold mutable_gpu_data at h1
    split at h1
    · cases h1
    · split at h1
      · cases h1
      · next m3 h3 =>
        simp only [Except.ok.injEq, Prod.mk.injEq] at h1
        obtain ⟨-, rfl⟩ := h1
        have hcount : deviceToHostCopies m3.calls = deviceToHostCopies m.calls := by
          rcases (to_gpu_cases rt1 m m3 h3).2 with ⟨_, _, m0, h0, rfl⟩ |
            ⟨hh2, _⟩ | ⟨hh2, _⟩
          · have := (maybe_allocate_device_frame rt1 True m m0 (by simpa using h0)).2.2.2.2
            dsimp only
            rw [deviceToHostCopies_append, this]
            rfl
          · rw [hh] at hh2; cases hh2
          · rcases hh2 with hh2 | hh2 <;> rw [hh] at hh2 <;> cases hh2
        unfold cpu_data at h2
        split at h2
        · cases h2
        · next m4 h4 =>
          simp only [Except.ok.injEq, Prod.mk.injEq] at h2
          obtain ⟨-, rfl⟩ := h2
          rcases to_cpu_cases cfg rt2 _ m4 h4 with ⟨hh2, _⟩ | ⟨_, _, m0, h0, rfl⟩ |
            ⟨hh2, _⟩
          · cases hh2
          · refine ⟨rfl, ?_⟩
            have := (maybe_allocate_host_frame cfg rt2 _ _ m0 h0).2.2.2.2
            dsimp only at this ⊢
            rw [deviceToHostCopies_append, this, hcount]
            rfl
          · rcases hh2 with hh2 | hh2 <;> cases hh2
  · intro hh hcd ha hn hz hcopy hhost
    change m.mem.head_ = _ at hh
    obtain ⟨p1, m1, h1, hh1, hp1, hs1, hu1⟩ :=
      mutable_gpu_data_returns rt1 m hh hcd ha hn hz
    obtain ⟨m2, h2⟩ := to_cpu_returns cfg rt2 m1 hh1 hcopy (by
      intro hn
      rw [hp1, hs1, hu1]
      exact hhost (hp1 ▸ hn))
    exact ⟨p1, m1, m2.mem.cpu_ptr_, m2, h1, by simp [cpu_data, h2]⟩
  · intro hh hnull hcopy
    change m.mem.head_ = _ at hh
    simp [to_cpu, hh, hnull, hcopy]
  · intro hh hnull hcopy p u hr
    change m.mem.head_ = _ at hh
    simp [to_cpu, allocate_host, hh, hnull, hcopy]
    rw [hnull] at hr
    simp [hr]
  · intro hh
    change m.mem.head_ = _ ∨ m.mem.head_ = _ at hh
    rcases hh with hh | hh <;> simp [to_cpu, hh]


/-- C5, at a concrete input: a fresh buffer of 4 bytes in surroundings that
report no failure. -/
theorem to_cpu_after_mutable_gpu_data_witness :
    (fresh 4 (fun _ => 7) (fun _ => 9)).mem.head = SyncedHead.UNINITIALIZED ∧
    ∃ p1 m1 p2 m2,
      mutable_gpu_data (healthy Brew.GPU) (fresh 4 (fun _ => 7) (fun _ => 9)) = .ok (p1, m1) ∧
      cpu_data ⟨false, false⟩ (healthy Brew.GPU) m1 = .ok (p2, m2) :=
  ⟨rfl, (to_cpu_after_mutable_gpu_data ⟨false, false⟩ (healthy Brew.GPU) (healthy Brew.GPU)
    (fresh 4 (fun _ => 7) (fun _ => 9))).2.1 rfl rfl rfl (by decide) rfl rfl
      (fun _ => ⟨4096, true, rfl⟩)⟩

/-- C6. On a buffer with `head() == HEAD_AT_CPU`, for every stream handle,
`async_gpu_push` leaves `head() == HEAD_AT_CPU` whenever it returns, and it
returns whenever the device check, the device allocation (if one is needed; an
allocation that returns the null address is a failure) and the issue of the copy
report no failure. In every other head state the call is a fatal error. -/
theorem async_gpu_push_keeps_head (rt : Runtime) (stream : Nat) (m : Machine) :
    (m.mem.head = SyncedHead.HEAD_AT_CPU →
      ∀ m1, async_gpu_push rt stream m = .ok m1 → m1.mem.head = SyncedHead.HEAD_AT_CPU) ∧
    (m.mem.head = SyncedHead.HEAD_AT_CPU →
      check_device rt m = .ok () →
      (m.mem.gpu_ptr_ = NULL → (rt.device_allocate m.mem.size_).1 = cudaSuccess ∧
        (rt.device_allocate m.mem.size_).2 ≠ NULL) →
      rt.device_copy_async = cudaSuccess →
      ∃ m1, async_gpu_push rt stream m = .ok m1 ∧ m1.mem.head = SyncedHead.HEAD_AT_CPU) ∧
    (m.mem.head ≠ SyncedHead.HEAD_AT_CPU →
      async_gpu_push rt stream m = .error Fatal.invalid_head) := by
  have key : ∀ m1, async_gpu_push rt stream m = .ok m1 →
      m1.mem.head_ = SyncedHead.HEAD_AT_CPU := by
    intro m1 h
    obtain ⟨hh, _, _, m0, h0, rfl⟩ := async_gpu_push_cases rt stream m m1 h
    exact (maybe_allocate_device_frame rt _ m m0 h0).2.1.trans hh
  refine ⟨fun _ => key, ?_, ?_⟩
  · intro hh hcd ha hs
    change m.mem.head_ = _ at hh
    suffices hex : ∃ m1, async_gpu_push rt stream m = .ok m1 by
      obtain ⟨m1, h1⟩ := hex
      exact ⟨m1, h1, key m1 h1⟩
    by_cases hnull : m.mem.gpu_ptr_ = NULL
    · simp [async_gpu_push, allocate_device, hh, hcd, (ha hnull).1, (ha hnull).2, hs, hnull]
    · simp [async_gpu_push, hh, hcd, hs, hnull]
  · intro hh
    change m.mem.head_ ≠ _ at hh
    simp [async_gpu_push, hh]

/-- C6, at a concrete input: a buffer of 4 bytes brought to `HEAD_AT_CPU` by a
mutable host access, then pushed on stream 1. -/
theorem async_gpu_push_keeps_head_witness :
    (run_or ⟨false, false⟩ (fresh 4 (fun _ => 7) (fun _ => 9))
      [(Action.mutable_cpu_data, healthy Brew.GPU)]).mem.head = SyncedHead.HEAD_AT_CPU ∧
    ∃ m1, async_gpu_push (healthy Brew.GPU) 1
        (run_or ⟨false, false⟩ (fresh 4 (fun _ => 7) (fun _ => 9))
          [(Action.mutable_cpu_data, healthy Brew.GPU)]) = .ok m1 ∧
      m1.mem.head = SyncedHead.HEAD_AT_CPU :=
  ⟨rfl, (async_gpu_push_keeps_head (healthy Brew.GPU) 1
    (run_or ⟨false, false⟩ (fresh 4 (fun _ => 7) (fun _ => 9))
      [(Action.mutable_cpu_data, healthy Brew.GPU)])).2.1 rfl rfl
      (fun _ => ⟨rfl, by decide⟩) rfl⟩

end caffe
